import Mathlib

/-!
Shallow embedding of the process lifecycle controller of the mamba
repository (file mamba/scripts/mamba_admin.py): the start, stop and
restart command handlers together with the reactor selection and the
argument vector construction, plus theorems settling the frozen claims
about them.

Conventions of the embedding:
* Python strings become Lean String; the Python substring test
  (needle in haystack) becomes strContains.
* The configuration object returned by
  mamba_services.config.Application() becomes the structure AppConfig;
  the attribute test hasattr(app, reactor) becomes an Option field.
* The platform flags GNU_LINUX, BSD, OSX, WINDOWS imported from
  mamba.core (platform detection, not part of the sources under
  scrutiny) are mutually exclusive detection results; they are embedded
  as the enumeration HostPlatform, matching the elif chain of
  determine_platform_reactor.
* Effects (prints, signals, process exits, sleeps) are embedded as
  event traces; external circumstances the code branches on (does the
  services import succeed, does twistd.pid exist, what output does the
  spawned child produce, does os.kill raise) are oracle parameters.
-/

/-- Bool test that the list needle occurs as a contiguous infix of the
list haystack; embeds the Python operator (needle in haystack) on
strings, via strContains below. -/
def listContains (haystack needle : List Char) : Bool :=
  match haystack with
  | [] => needle.isEmpty
  | _ :: rest => needle.isPrefixOf haystack || listContains rest needle

/-- Python substring containment: sub in s. -/
def strContains (s sub : String) : Bool :=
  listContains s.toList sub.toList

/-- Bool test that the string pre is a prefix of the string s (used to
state that no element of an argument vector is a port override). -/
def strHasPrefix (pre s : String) : Bool :=
  pre.toList.isPrefixOf s.toList

/-- The slice of the application configuration object read by the start
command handler: app.port, app.development, app.auto_select_reactor and
the optional app.reactor attribute (hasattr test in
determine_platform_reactor). -/
structure AppConfig where
  port : Option Int
  development : Bool
  auto_select_reactor : Bool
  reactor : Option String
deriving DecidableEq

/-- The mutually exclusive platform detection flags GNU_LINUX, BSD, OSX,
WINDOWS of mamba.core, as a single enumeration; other is the case where
all four flags are False. -/
inductive HostPlatform
  | gnu_linux
  | bsd
  | osx
  | windows
  | other
deriving DecidableEq

/-- Embeds determine_platform_reactor of mamba_admin.py: if the
application configuration has a reactor attribute, format it into
--reactor={}; otherwise format the platform default (select, overridden
by the elif chain on the platform flags). -/
def determine_platform_reactor (cfg : AppConfig) (p : HostPlatform) : String :=
  match cfg.reactor with
  | some r => "--reactor=" ++ r
  | none =>
    let dflt : String :=
      match p with
      | .gnu_linux => "epoll"
      | .bsd => "kqueue"
      | .osx => "cf"
      | .windows => "iocp"
      | .other => "select"
    "--reactor=" ++ dflt

/-- Embeds the argument vector construction of handle_start_command
(lines 158-191): args starts as [twistd, --nodaemon]; outside heroku,
the reactor argument is appended when auto_select_reactor is false, and
when development is false the first occurrence of --nodaemon is removed
(Python list.remove, Lean List.erase) and --syslog appended; then the
application name is appended; finally, when the start subcommand options
object is present and its port option string is truthy (non empty), a
--port override is appended. port_opt = none embeds options being None,
port_opt = some s embeds options.subOptions.opts of port being s. -/
def build_args (cfg : AppConfig) (p : HostPlatform) (heroku : Bool)
    (app_name : String) (port_opt : Option String) : List String :=
  let args : List String := ["twistd", "--nodaemon"]
  let args :=
    if heroku = false then
      let args :=
        if cfg.auto_select_reactor = false then
          args ++ [determine_platform_reactor cfg p]
        else args
      if cfg.development = false then
        args.erase "--nodaemon" ++ ["--syslog"]
      else args
    else args
  let args := args ++ [app_name]
  match port_opt with
  | none => args
  | some s => if s = "" then args else args ++ ["--port=" ++ s]

/-- The four way classification of the captured output of the spawned
child (lines 205-216 of mamba_admin.py): failureErr keeps the stderr
text (err non empty), failureOut is the exception substring case,
alreadyRunning the already installed case, successOut the rest. -/
inductive Outcome
  | failureErr (err : String)
  | failureOut
  | alreadyRunning
  | successOut
deriving DecidableEq

/-- Embeds the if/elif classification of (out, err) captured from
proc.communicate(): stderr first, then the exception substring, then the
already installed substring, else success. -/
def classify_output (out err : String) : Outcome :=
  if err = "" then
    if strContains out "exception" then .failureOut
    else if strContains out "already installed" then .alreadyRunning
    else .successOut
  else .failureErr err

/-- The exit code handle_start_command passes to sys.exit for each
classified outcome; alreadyRunning performs a retry instead of exiting,
hence none. -/
def outcome_exit_code : Outcome → Option Int
  | .failureErr _ => some (-1)
  | .failureOut => some (-1)
  | .alreadyRunning => none
  | .successOut => some 0

/-- The distinct pre spawn failure exits of handle_start_command, named
after the error taxonomy of the specification; each one prints a
diagnostic and calls sys.exit(-1). -/
inductive StartError
  | configurationMissing
  | missingPort
  | privilegedPortDenied
  | pluginNotFound
  | alreadyRunning
deriving DecidableEq

/-- How one invocation of handle_start_command ends: failed e is a
sys.exit(-1) before any launch, execReplaced is the os.execlp path
(process image replaced, never returns), exited c is sys.exit(c) after a
supervised spawn, scriptEnd is the model artifact of running out of
scripted child outputs. -/
inductive StartResult
  | failed (e : StartError)
  | execReplaced (args : List String)
  | exited (code : Int)
  | scriptEnd
deriving DecidableEq

/-- The external circumstances one invocation of handle_start_command
observes: whether import_services and the config load succeed, the POSIX
flag, the loaded configuration, the detected platform, the application
name resolved from the twisted/plugins glob (none embeds the IndexError
case), whether twistd.pid exists, os.getuid(), and the PYTHONHOME
environment string the heroku detection inspects. -/
structure StartEnv where
  services_ok : Bool
  posix : Bool
  cfg : AppConfig
  platform : HostPlatform
  app_name : Option String
  pid_file_exists : Bool
  uid : Nat
  pythonhome : String
deriving DecidableEq

/-- Line 178 of mamba_admin.py: in_heroku is the substring test of
.heroku inside os.environ PYTHONHOME. -/
def in_heroku (env : StartEnv) : Bool :=
  strContains env.pythonhome ".heroku"

/-- The POSIX only port validation block (lines 135-156): missing port,
then the reserved port check port <= 1024 against os.getuid() != 0; none
means the validation passes (or the platform is not POSIX, where the
block is skipped). -/
def port_failure (env : StartEnv) : Option StartError :=
  if env.posix then
    match env.cfg.port with
    | none => some .missingPort
    | some p =>
      if p ≤ 1024 then
        if env.uid ≠ 0 then some .privilegedPortDenied else none
      else none
  else none

/-- How the pre spawn phase of handle_start_command ends: abort with one
of the diagnostic exits, replace the process image via os.execlp (heroku
or development), or proceed to the supervised subprocess.Popen spawn
with the built argument vector. -/
inductive LaunchMode
  | abort (e : StartError)
  | exec (args : List String)
  | spawn (args : List String)
deriving DecidableEq

/-- The pre spawn phase of handle_start_command in source order:
services import, POSIX port validation, plugin glob, twistd.pid check,
argument vector construction, then the heroku or development test that
chooses between os.execlp and subprocess.Popen. -/
def start_prelude (env : StartEnv) (opts : Option String) : LaunchMode :=
  if env.services_ok = false then .abort .configurationMissing
  else
    match port_failure env with
    | some e => .abort e
    | none =>
      match env.app_name with
      | none => .abort .pluginNotFound
      | some app_name =>
        if env.pid_file_exists then .abort .alreadyRunning
        else
          let args := build_args env.cfg env.platform (in_heroku env) app_name opts
          if in_heroku env || env.cfg.development then .exec args
          else .spawn args

/-- One full run of handle_start_command, with the outputs of successive
supervised spawns scripted by the list: a spawn consumes the head
(out, err) pair, classifies it, and on alreadyRunning re-runs the whole
start sequence on the remaining script (the recursive
handle_start_command(options, True) call on line 210). The result
carries the number of supervised spawns performed and the number of
start invocations made (this one included). -/
def run_start (env : StartEnv) (opts : Option String) :
    List (String × String) → StartResult × Nat × Nat
  | [] =>
    match start_prelude env opts with
    | .abort e => (.failed e, 0, 1)
    | .exec args => (.execReplaced args, 0, 1)
    | .spawn _ => (.scriptEnd, 0, 1)
  | (out, err) :: rest =>
    match start_prelude env opts with
    | .abort e => (.failed e, 0, 1)
    | .exec args => (.execReplaced args, 0, 1)
    | .spawn _ =>
      match classify_output out err with
      | .alreadyRunning =>
        let r := run_start env opts rest
        (r.1, r.2.1 + 1, r.2.2 + 1)
      | .failureErr _ => (.exited (-1), 1, 1)
      | .failureOut => (.exited (-1), 1, 1)
      | .successOut => (.exited 0, 1, 1)

/-- The process exit code a StartResult stands for: every pre spawn
failure calls sys.exit(-1); exited c is sys.exit(c); the exec
replacement and the script end artifact have none. -/
def result_exit_code : StartResult → Option Int
  | .failed _ => some (-1)
  | .execReplaced _ => none
  | .exited c => some c
  | .scriptEnd => none

/-- The observable events of one run of handle_stop_command: printed
lines, the os.kill call with the parsed pid (the SIGINT signal is the
only one ever sent), the sys.exit calls, and the re-raise of the caught
exception. There deliberately is no waiting or polling event: the
handler returns right after printing the status marker. ANSI colour
wrapping (darkgreen, darkred) and the ljust padding of the printed
message are elided; the status markers are kept as [Ok] and [Fail]. -/
inductive StopEv
  | printLine (s : String)
  | kill (pid : Int)
  | exitCode (c : Int)
  | raised
deriving DecidableEq

/-- Accumulating decimal digit parser over a character list; none as
soon as a non digit appears. -/
def parse_digits_aux : List Char → Nat → Option Nat
  | [], acc => some acc
  | c :: cs, acc =>
    if c.isDigit then parse_digits_aux cs (acc * 10 + (c.toNat - 48))
    else none

/-- The int() conversion applied to the marker file content on line 248:
an optional leading minus sign followed by at least one decimal digit
(the whitespace stripping int() also performs is elided; a pid file
content is a bare decimal number). none embeds the ValueError raised on
non numeric content. -/
def python_int (s : String) : Option Int :=
  match s.toList with
  | [] => none
  | '-' :: cs =>
    match cs with
    | [] => none
    | _ => (parse_digits_aux cs 0).map (fun n => -(n : Int))
  | cs => (parse_digits_aux cs 0).map (fun n => (n : Int))

/-- One run of handle_stop_command (lines 223-252). marker = none embeds
twistd.pid not existing, marker = some c embeds the file existing with
content c. The try block first evaluates int(pid): a non numeric content
raises before the kill, is caught by the bare except, prints the Fail
marker and re-raises; otherwise os.kill(int(pid), SIGINT) runs, and the
oracle kill_raises tells whether that call raises an OSError, in which
case the except branch prints the Fail marker and re-raises; else the Ok
marker is printed and the handler returns. -/
def run_stop (services_ok : Bool) (marker : Option String)
    (kill_raises : Bool) : List StopEv :=
  if services_ok = false then
    [.printLine "error: make sure you are inside a mamba application root directory and then run this command again",
     .exitCode (-1)]
  else
    match marker with
    | none =>
      [.printLine "error: twistd.pid file can not be found. You should be in the applicatin directory in order to stop it",
       .exitCode (-1)]
    | some content =>
      let msg := "killing process id " ++ content ++ " with SIGINT signal"
      match python_int content with
      | none => [.printLine msg, .printLine "[Fail]", .raised]
      | some pid =>
        if kill_raises then
          [.printLine msg, .kill pid, .printLine "[Fail]", .raised]
        else
          [.printLine msg, .kill pid, .printLine "[Ok]"]

/-- The observable events of one run of handle_restart_command: the
handle_stop_command call, each os.path.exists check of twistd.pid with
its observed answer, each time.sleep(0.1) as a 100 millisecond sleep,
and the final handle_start_command call carrying the options it is
invoked with. -/
inductive RestartEv
  | stopCmd
  | checkMarker (b : Bool)
  | sleepMs (n : Nat)
  | startCmd (opts : Option String)
deriving DecidableEq

/-- The options argument the restart handler passes to
handle_start_command on line 262: the call handle_start_command() uses
the default options=None. -/
def restart_start_options : Option String := none

/-- The while loop of handle_restart_command, as a fuelled trace
builder: e k is the answer of the k-th os.path.exists check of
twistd.pid. A true check is followed by a 100 millisecond sleep and the
next check; a false check leaves the loop. The source loop has no fuel:
none embeds the run not having terminated within the given number of
iterations. -/
def poll_loop (e : Nat → Bool) (k : Nat) : Nat → Option (List RestartEv)
  | 0 => none
  | fuel + 1 =>
    if e k then
      match poll_loop e (k + 1) fuel with
      | none => none
      | some rest => some ([.checkMarker true, .sleepMs 100] ++ rest)
    else some [.checkMarker false]

/-- One run of handle_restart_command (lines 255-262): stop, then the
existence polling loop, then start with no options. -/
def handle_restart (e : Nat → Bool) (fuel : Nat) : Option (List RestartEv) :=
  match poll_loop e 0 fuel with
  | none => none
  | some p => some (.stopCmd :: p ++ [.startCmd restart_start_options])

/-- The trace of n consecutive positive marker checks, each followed by
its 100 millisecond sleep. -/
def poll_head_trace : Nat → List RestartEv
  | 0 => []
  | n + 1 => [RestartEv.checkMarker true, RestartEv.sleepMs 100] ++ poll_head_trace n

/-- A start environment used to instantiate witnesses on the supervised
spawn path: services import fine, POSIX with an unreserved port 8080,
Linux, plugin dummy found, no pid file, production configuration, not
heroku. -/
def demo_env : StartEnv :=
  ⟨true, true, ⟨some 8080, false, false, none⟩, .gnu_linux, some "dummy", false, 1000, ""⟩

/-- demo_env with the twistd.pid file present. -/
def demo_env_pid : StartEnv :=
  ⟨true, true, ⟨some 8080, false, false, none⟩, .gnu_linux, some "dummy", true, 1000, ""⟩

/-- demo_env inside a heroku style environment (PYTHONHOME contains
.heroku). -/
def demo_env_heroku : StartEnv :=
  ⟨true, true, ⟨some 8080, false, false, none⟩, .gnu_linux, some "dummy", false, 1000, "/app/.heroku/python"⟩

theorem run_start_abort (env : StartEnv) (opts : Option String)
    (script : List (String × String)) (e : StartError)
    (h : start_prelude env opts = .abort e) :
    run_start env opts script = (.failed e, 0, 1) := by
  cases script with
  | nil => unfold run_start; rw [h]
  | cons hd tl => obtain ⟨o, er⟩ := hd; unfold run_start; rw [h]

theorem run_start_failed_inv (env : StartEnv) (opts : Option String) :
    ∀ (script : List (String × String)) (e : StartError),
      (run_start env opts script).1 = .failed e →
        start_prelude env opts = .abort e := by
  intro script
  induction script with
  | nil =>
    intro e h
    unfold run_start at h
    rcases hp : start_prelude env opts with e2 | args | args <;> rw [hp] at h <;>
      simp_all
  | cons hd rest ih =>
    obtain ⟨out, err⟩ := hd
    intro e h
    unfold run_start at h
    rcases hp : start_prelude env opts with e2 | args | args <;> rw [hp] at h
    · simp_all
    · simp_all
    · rcases hc : classify_output out err with e3 | _ | _ | _ <;> rw [hc] at h <;>
        simp_all

theorem start_prelude_pid (env : StartEnv) (opts : Option String)
    (h : env.pid_file_exists = true) :
    ∃ e, start_prelude env opts = .abort e := by
  unfold start_prelude
  repeat' split
  all_goals first
    | exact ⟨_, rfl⟩
    | simp_all

theorem start_prelude_spawn (env : StartEnv) (opts : Option String) (a : String)
    (h1 : env.services_ok = true) (h2 : port_failure env = none)
    (h3 : env.app_name = some a) (h4 : env.pid_file_exists = false)
    (h5 : (in_heroku env || env.cfg.development) = false) :
    start_prelude env opts
      = .spawn (build_args env.cfg env.platform (in_heroku env) a opts) := by
  simp [start_prelude, h1, h2, h3, h4, h5]

theorem start_prelude_exec (env : StartEnv) (opts : Option String) (a : String)
    (h1 : env.services_ok = true) (h2 : port_failure env = none)
    (h3 : env.app_name = some a) (h4 : env.pid_file_exists = false)
    (h5 : (in_heroku env || env.cfg.development) = true) :
    start_prelude env opts
      = .exec (build_args env.cfg env.platform (in_heroku env) a opts) := by
  simp [start_prelude, h1, h2, h3, h4, h5]

theorem start_prelude_exec_inv (env : StartEnv) (opts : Option String)
    (args : List String) (h : start_prelude env opts = .exec args) :
    (in_heroku env || env.cfg.development) = true := by
  unfold start_prelude at h
  repeat' split at h
  all_goals simp_all

theorem start_prelude_abort_inv (env : StartEnv) (opts : Option String)
    (e : StartError) (h : start_prelude env opts = .abort e) :
    (env.services_ok = false ∧ e = .configurationMissing)
    ∨ port_failure env = some e
    ∨ e = .pluginNotFound
    ∨ e = .alreadyRunning := by
  unfold start_prelude at h
  repeat' split at h
  all_goals simp_all

theorem run_start_exec_inv (env : StartEnv) (opts : Option String) :
    ∀ (script : List (String × String)) (args : List String),
      (run_start env opts script).1 = .execReplaced args →
        start_prelude env opts = .exec args := by
  intro script
  induction script with
  | nil =>
    intro args h
    unfold run_start at h
    rcases hp : start_prelude env opts with e2 | args2 | args2 <;> rw [hp] at h <;>
      simp_all
  | cons hd rest ih =>
    obtain ⟨out, err⟩ := hd
    intro args h
    unfold run_start at h
    rcases hp : start_prelude env opts with e2 | args2 | args2 <;> rw [hp] at h
    · simp_all
    · simp_all
    · rcases hc : classify_output out err with e3 | _ | _ | _ <;> rw [hc] at h <;>
        simp_all

/-- C7: for every platform, the reactor selector with no configured
override returns the fixed platform default (LINUX epoll, BSD kqueue,
DARWIN cf, WINDOWS iocp, any other platform select); when a reactor
override is configured it is used verbatim inside the single
--reactor= argument, regardless of the platform. -/
theorem reactor_selection_spec (cfg : AppConfig) :
    (cfg.reactor = none →
      determine_platform_reactor cfg .gnu_linux = "--reactor=epoll"
      ∧ determine_platform_reactor cfg .bsd = "--reactor=kqueue"
      ∧ determine_platform_reactor cfg .osx = "--reactor=cf"
      ∧ determine_platform_reactor cfg .windows = "--reactor=iocp"
      ∧ determine_platform_reactor cfg .other = "--reactor=select")
    ∧ (∀ (r : String) (p : HostPlatform), cfg.reactor = some r →
        determine_platform_reactor cfg p = "--reactor=" ++ r) := by
  constructor
  · intro h
    refine ⟨?_, ?_, ?_, ?_, ?_⟩ <;> simp [determine_platform_reactor, h]
  · intro r p h
    simp [determine_platform_reactor, h]

/-- C7 witness: concrete evaluations of the selector through the
theorem, one default case and one override case. -/
theorem reactor_selection_spec_witness :
    determine_platform_reactor ⟨some 8080, false, false, none⟩ .gnu_linux
      = "--reactor=epoll"
    ∧ determine_platform_reactor ⟨some 8080, false, false, some "poll"⟩ .windows
      = "--reactor=poll" :=
  ⟨((reactor_selection_spec ⟨some 8080, false, false, none⟩).1 rfl).1,
   (reactor_selection_spec ⟨some 8080, false, false, some "poll"⟩).2 "poll" .windows rfl⟩

/-- C1 counterexample: in the production Linux scenario of the claim
(development false, auto_select_reactor false, no override, not heroku,
no port override) the built argument vector is
[twistd, --reactor=epoll, --syslog, dummy], whose last three elements
are in the order reactor first, syslog second: the sequence
[--syslog, --reactor=epoll, dummy] the claim states is not a suffix of
it. -/
theorem start_args_order_counterexample :
    build_args ⟨some 8080, false, false, none⟩ .gnu_linux false "dummy" none
      = ["twistd", "--reactor=epoll", "--syslog", "dummy"]
    ∧ ¬ ["--syslog", "--reactor=epoll", "dummy"] <:+
        build_args ⟨some 8080, false, false, none⟩ .gnu_linux false "dummy" none := by
  decide

/-- C1 amended: with development false, auto_select_reactor false, no
reactor override, platform Linux, not heroku and no port override, the
built argument vector ends with [--reactor=epoll, --syslog, appName] in
that order (the reactor argument is appended before --nodaemon is
removed and --syslog appended) and does not contain --nodaemon. -/
theorem start_args_linux_production (cfg : AppConfig) (a : String)
    (hdev : cfg.development = false) (hauto : cfg.auto_select_reactor = false)
    (hreactor : cfg.reactor = none) (hname : a ≠ "--nodaemon") :
    build_args cfg .gnu_linux false a none
      = ["twistd", "--reactor=epoll", "--syslog", a]
    ∧ ["--reactor=epoll", "--syslog", a] <:+ build_args cfg .gnu_linux false a none
    ∧ "--nodaemon" ∉ build_args cfg .gnu_linux false a none := by
  obtain ⟨port, dev, auto, re⟩ := cfg
  simp only at hdev hauto hreactor
  subst hdev hauto hreactor
  have heq : build_args ⟨port, false, false, none⟩ .gnu_linux false a none
      = ["twistd", "--reactor=epoll", "--syslog", a] := rfl
  refine ⟨heq, ⟨["twistd"], by simp [heq]⟩, ?_⟩
  intro hmem
  rw [heq] at hmem
  simp only [List.mem_cons, List.not_mem_nil, or_false] at hmem
  rcases hmem with h | h | h | h
  · exact absurd h (by decide)
  · exact absurd h (by decide)
  · exact absurd h (by decide)
  · exact hname h.symm

/-- C1 amended witness: the production Linux argument vector evaluated
at a concrete configuration and application name through the theorem. -/
theorem start_args_linux_production_witness :
    build_args ⟨some 8080, false, false, none⟩ .gnu_linux false "dummy" none
      = ["twistd", "--reactor=epoll", "--syslog", "dummy"]
    ∧ ["--reactor=epoll", "--syslog", "dummy"] <:+
        build_args ⟨some 8080, false, false, none⟩ .gnu_linux false "dummy" none
    ∧ "--nodaemon" ∉
        build_args ⟨some 8080, false, false, none⟩ .gnu_linux false "dummy" none :=
  start_args_linux_production ⟨some 8080, false, false, none⟩ "dummy"
    rfl rfl rfl (by decide)

/-- C5: stop with no twistd.pid marker prints the not running diagnostic
and exits with code -1; with the marker present and readable as a pid it
prints the killing process id line, performs the single os.kill with
SIGINT on that pid, prints the Ok marker when the kill call raises no OS
error and the Fail marker followed by a re-raise when it does; the
traces contain no waiting for the process to exit nor for the marker to
disappear. -/
theorem stop_command_spec (c : String) (pid : Int) (kr : Bool)
    (hparse : python_int c = some pid) :
    run_stop true none kr =
      [.printLine "error: twistd.pid file can not be found. You should be in the applicatin directory in order to stop it",
       .exitCode (-1)]
    ∧ run_stop true (some c) false =
        [.printLine ("killing process id " ++ c ++ " with SIGINT signal"),
         .kill pid, .printLine "[Ok]"]
    ∧ run_stop true (some c) true =
        [.printLine ("killing process id " ++ c ++ " with SIGINT signal"),
         .kill pid, .printLine "[Fail]", .raised] := by
  refine ⟨?_, ?_, ?_⟩ <;> simp [run_stop, hparse]

/-- C5 witness: the marker content 4242 evaluated through the theorem:
stop sends SIGINT to pid 4242 and prints the Ok marker when the kill
raises no error. -/
theorem stop_command_spec_witness :
    run_stop true (some "4242") false =
      [.printLine ("killing process id " ++ "4242" ++ " with SIGINT signal"),
       .kill 4242, .printLine "[Ok]"] :=
  (stop_command_spec "4242" 4242 false (by decide)).2.1

/-- C2: the supervised spawn output classification, in source order:
non empty stderr is a failure with exit code -1; else an exception
substring in stdout is a failure with exit code -1; else the already
installed substring in stdout is the alreadyRunning outcome (no exit, a
retry instead); else success with exit code 0. -/
theorem classify_output_spec (out err : String) :
    (err ≠ "" →
      classify_output out err = .failureErr err
      ∧ outcome_exit_code (classify_output out err) = some (-1))
    ∧ (err = "" → strContains out "exception" = true →
        classify_output out err = .failureOut
        ∧ outcome_exit_code (classify_output out err) = some (-1))
    ∧ (err = "" → strContains out "exception" = false →
        strContains out "already installed" = true →
          classify_output out err = .alreadyRunning
          ∧ outcome_exit_code (classify_output out err) = none)
    ∧ (err = "" → strContains out "exception" = false →
        strContains out "already installed" = false →
          classify_output out err = .successOut
          ∧ outcome_exit_code (classify_output out err) = some 0) := by
  refine ⟨?_, ?_, ?_, ?_⟩
  · intro h
    simp [classify_output, h, outcome_exit_code]
  · intro h1 h2
    simp [classify_output, h1, h2, outcome_exit_code]
  · intro h1 h2 h3
    simp [classify_output, h1, h2, h3, outcome_exit_code]
  · intro h1 h2 h3
    simp [classify_output, h1, h2, h3, outcome_exit_code]

/-- C2 witness: the four classification cases evaluated at concrete
captured outputs through the theorem. -/
theorem classify_output_spec_witness :
    (classify_output "fine" "boom" = .failureErr "boom"
      ∧ outcome_exit_code (classify_output "fine" "boom") = some (-1))
    ∧ (classify_output "an exception rose" "" = .failureOut
      ∧ outcome_exit_code (classify_output "an exception rose" "") = some (-1))
    ∧ (classify_output "app already installed" "" = .alreadyRunning
      ∧ outcome_exit_code (classify_output "app already installed" "") = none)
    ∧ (classify_output "fine" "" = .successOut
      ∧ outcome_exit_code (classify_output "fine" "") = some 0) :=
  ⟨(classify_output_spec "fine" "boom").1 (by decide),
   (classify_output_spec "an exception rose" "").2.1 rfl (by decide),
   (classify_output_spec "app already installed" "").2.2.1 rfl (by decide) (by decide),
   (classify_output_spec "fine" "").2.2.2 rfl (by decide) (by decide)⟩

/-- C4 counterexample: an invocation of start with twistd.pid present
but a configuration without a port (on POSIX) exits through the missing
port diagnostic, not through the already running one: the POSIX port
validation runs before the twistd.pid check, so the marker being present
does not make the failure an already running failure. -/
theorem start_marker_present_counterexample :
    (StartEnv.mk true true ⟨none, false, false, none⟩ .gnu_linux
        (some "dummy") true 1000 "").pid_file_exists = true
    ∧ run_start
        (StartEnv.mk true true ⟨none, false, false, none⟩ .gnu_linux
          (some "dummy") true 1000 "") none []
        = (.failed .missingPort, 0, 1)
    ∧ (StartResult.failed .missingPort ≠ StartResult.failed .alreadyRunning) := by
  decide

/-- C4 amended: for every invocation of start in which twistd.pid
exists, start terminates with exit code -1 and performs no spawn; the
failure is specifically the already running one whenever the checks the
source performs before the marker check (services import, POSIX port
validation, plugin glob) all succeed. -/
theorem start_marker_present_no_spawn (env : StartEnv) (opts : Option String)
    (script : List (String × String)) (h : env.pid_file_exists = true) :
    (run_start env opts script).2.1 = 0
    ∧ result_exit_code (run_start env opts script).1 = some (-1)
    ∧ (env.services_ok = true → port_failure env = none →
        ∀ a, env.app_name = some a →
          (run_start env opts script).1 = .failed .alreadyRunning) := by
  obtain ⟨e, hp⟩ := start_prelude_pid env opts h
  rw [run_start_abort env opts script e hp]
  refine ⟨rfl, rfl, ?_⟩
  intro hs hpf a ha
  have habort : start_prelude env opts = .abort .alreadyRunning := by
    simp [start_prelude, hs, hpf, ha, h]
  rw [hp] at habort
  cases habort
  rfl

/-- C4 amended witness: a concrete valid environment with the marker
present, evaluated through the theorem: no spawn, exit code -1, failure
alreadyRunning. -/
theorem start_marker_present_no_spawn_witness :
    (run_start demo_env_pid none []).2.1 = 0
    ∧ result_exit_code (run_start demo_env_pid none []).1 = some (-1)
    ∧ (run_start demo_env_pid none []).1 = .failed .alreadyRunning := by
  have h := start_marker_present_no_spawn demo_env_pid none [] rfl
  exact ⟨h.1, h.2.1, h.2.2 rfl (by decide) "dummy" rfl⟩

/-- C6: on POSIX with the services import fine, a missing configured
port makes start exit with code -1 before any spawn through the missing
port diagnostic; the reserved port failure happens exactly when the
configured port is at most 1024 and the invoking user is not root; any
port above 1024 passes the port validation regardless of privilege. -/
theorem port_validation_spec (env : StartEnv) (opts : Option String)
    (script : List (String × String))
    (hs : env.services_ok = true) (hposix : env.posix = true) :
    (env.cfg.port = none →
      run_start env opts script = (.failed .missingPort, 0, 1)
      ∧ result_exit_code (run_start env opts script).1 = some (-1))
    ∧ (∀ p : Int, env.cfg.port = some p →
        ((run_start env opts script).1 = .failed .privilegedPortDenied ↔
          (p ≤ 1024 ∧ env.uid ≠ 0)))
    ∧ (∀ p : Int, env.cfg.port = some p → 1024 < p → port_failure env = none) := by
  refine ⟨?_, ?_, ?_⟩
  · intro hport
    have hpf : port_failure env = some .missingPort := by
      simp [port_failure, hposix, hport]
    have habort : start_prelude env opts = .abort .missingPort := by
      simp [start_prelude, hs, hpf]
    rw [run_start_abort env opts script _ habort]
    exact ⟨rfl, rfl⟩
  · intro p hport
    constructor
    · intro hres
      have habort := run_start_failed_inv env opts script _ hres
      rcases start_prelude_abort_inv env opts _ habort with ⟨hsf, _⟩ | hpf | he | he
      · rw [hs] at hsf
        cases hsf
      · simp only [port_failure, hposix, if_true, hport] at hpf
        by_cases hle : p ≤ 1024
        · by_cases hu : env.uid = 0
          · simp [hle, hu] at hpf
          · exact ⟨hle, hu⟩
        · simp [hle] at hpf
      · exact StartError.noConfusion he
      · exact StartError.noConfusion he
    · intro ⟨hle, hu⟩
      have hpf : port_failure env = some .privilegedPortDenied := by
        simp [port_failure, hposix, hport, hle, hu]
      have habort : start_prelude env opts = .abort .privilegedPortDenied := by
        simp [start_prelude, hs, hpf]
      rw [run_start_abort env opts script _ habort]
  · intro p hport hgt
    simp [port_failure, hposix, hport]
    omega

/-- C6 witness: a POSIX environment with port 80 and uid 1000 fails the
port validation with the reserved port diagnostic; port 8080 passes it;
a missing port exits with the missing port diagnostic before any
spawn. -/
theorem port_validation_spec_witness :
    ((run_start ⟨true, true, ⟨some 80, false, false, none⟩, .gnu_linux,
        some "dummy", false, 1000, ""⟩ none []).1
      = .failed .privilegedPortDenied)
    ∧ port_failure demo_env = none
    ∧ run_start ⟨true, true, ⟨none, false, false, none⟩, .gnu_linux,
        some "dummy", false, 1000, ""⟩ none []
        = (.failed .missingPort, 0, 1) := by
  refine ⟨?_, ?_, ?_⟩
  · exact ((port_validation_spec ⟨true, true, ⟨some 80, false, false, none⟩,
      .gnu_linux, some "dummy", false, 1000, ""⟩ none [] rfl rfl).2.1 80 rfl).mpr
      (by decide)
  · exact (port_validation_spec demo_env none [] rfl rfl).2.2 8080 rfl (by decide)
  · exact ((port_validation_spec ⟨true, true, ⟨none, false, false, none⟩,
      .gnu_linux, some "dummy", false, 1000, ""⟩ none [] rfl rfl).1 rfl).1

/-- C3: when a supervised spawn classifies as alreadyRunning, start
makes exactly one additional start invocation for that outcome, and that
invocation re-runs the whole start sequence from the beginning on the
remaining scripted outputs: the run on the extended script equals the
fresh run on the remaining script with both the spawn count and the
start invocation count increased by exactly one. -/
theorem start_retry_on_already_running (env : StartEnv) (opts : Option String)
    (out err : String) (rest : List (String × String)) (a : String)
    (h1 : env.services_ok = true) (h2 : port_failure env = none)
    (h3 : env.app_name = some a) (h4 : env.pid_file_exists = false)
    (h5 : (in_heroku env || env.cfg.development) = false)
    (hclass : classify_output out err = .alreadyRunning) :
    run_start env opts ((out, err) :: rest) =
      ((run_start env opts rest).1,
       (run_start env opts rest).2.1 + 1,
       (run_start env opts rest).2.2 + 1) := by
  have hp := start_prelude_spawn env opts a h1 h2 h3 h4 h5
  simp only [run_start, hp, hclass]

/-- C3 witness: a concrete run whose first spawn reports already
installed makes exactly one more start invocation and continues as a
fresh run on the remaining script. -/
theorem start_retry_on_already_running_witness :
    run_start demo_env none [("mamba already installed", ""), ("fine", "")] =
      ((run_start demo_env none [("fine", "")]).1,
       (run_start demo_env none [("fine", "")]).2.1 + 1,
       (run_start demo_env none [("fine", "")]).2.2 + 1) :=
  start_retry_on_already_running demo_env none "mamba already installed" ""
    [("fine", "")] "dummy" rfl (by decide) rfl rfl (by decide) (by decide)

/-- C9: provided start reaches the launch decision (services import
fine, port validation passed, plugin found, no twistd.pid marker), it
replaces the current process image with the child built from the
argument vector exactly when the environment is heroku like or
developmentMode is true, performing no supervised spawn and no output
classification there; in every other case it performs at least one
supervised spawn whose captured output is classified. -/
theorem start_exec_iff_heroku_or_dev (env : StartEnv) (opts : Option String)
    (script : List (String × String)) (a : String) (out err : String)
    (rest : List (String × String))
    (h1 : env.services_ok = true) (h2 : port_failure env = none)
    (h3 : env.app_name = some a) (h4 : env.pid_file_exists = false) :
    ((in_heroku env || env.cfg.development) = true →
      run_start env opts script =
        (.execReplaced (build_args env.cfg env.platform (in_heroku env) a opts),
         0, 1))
    ∧ (∀ args : List String,
        (run_start env opts script).1 = .execReplaced args →
          (in_heroku env || env.cfg.development) = true)
    ∧ ((in_heroku env || env.cfg.development) = false →
        1 ≤ (run_start env opts ((out, err) :: rest)).2.1) := by
  refine ⟨?_, ?_, ?_⟩
  · intro h5
    have hp := start_prelude_exec env opts a h1 h2 h3 h4 h5
    cases script with
    | nil => unfold run_start; rw [hp]
    | cons hd tl => obtain ⟨o, er⟩ := hd; unfold run_start; rw [hp]
  · intro args hres
    exact start_prelude_exec_inv env opts args
      (run_start_exec_inv env opts script args hres)
  · intro h5
    have hp := start_prelude_spawn env opts a h1 h2 h3 h4 h5
    unfold run_start
    rw [hp]
    rcases hc : classify_output out err with e3 | _ | _ | _ <;> simp

theorem poll_loop_eq (e : Nat → Bool) :
    ∀ (n k fuel : Nat), (∀ j, j < n → e (k + j) = true) →
      e (k + n) = false → n < fuel →
        poll_loop e k fuel
          = some (poll_head_trace n ++ [RestartEv.checkMarker false]) := by
  intro n
  induction n with
  | zero =>
    intro k fuel htrue hfalse hfuel
    cases fuel with
    | zero => exact absurd hfuel (by omega)
    | succ f =>
      simp only [Nat.add_zero] at hfalse
      simp [poll_loop, hfalse, poll_head_trace]
  | succ m ih =>
    intro k fuel htrue hfalse hfuel
    cases fuel with
    | zero => exact absurd hfuel (by omega)
    | succ f =>
      have hk : e k = true := by
        have h0 := htrue 0 (by omega)
        simpa using h0
      have hshift : ∀ j, j < m → e (k + 1 + j) = true := by
        intro j hj
        have heq : k + 1 + j = k + (j + 1) := by omega
        rw [heq]
        exact htrue (j + 1) (by omega)
      have hfalse2 : e (k + 1 + m) = false := by
        have heq : k + 1 + m = k + (m + 1) := by omega
        rw [heq]
        exact hfalse
      have hrec := ih (k + 1) f hshift hfalse2 (by omega)
      simp [poll_loop, hk, hrec, poll_head_trace]

theorem poll_loop_none (e : Nat → Bool) (h : ∀ k, e k = true) :
    ∀ (fuel k : Nat), poll_loop e k fuel = none := by
  intro fuel
  induction fuel with
  | zero => intro k; rfl
  | succ f ih => intro k; simp [poll_loop, h k, ih (k + 1)]

theorem poll_loop_events (e : Nat → Bool) :
    ∀ (fuel k : Nat) (l : List RestartEv), poll_loop e k fuel = some l →
      ∀ ev ∈ l, ev = RestartEv.checkMarker true ∨ ev = RestartEv.checkMarker false
        ∨ ev = RestartEv.sleepMs 100 := by
  intro fuel
  induction fuel with
  | zero =>
    intro k l h
    simp [poll_loop] at h
  | succ f ih =>
    intro k l h
    by_cases hk : e k = true
    · unfold poll_loop at h
      rw [if_pos hk] at h
      split at h
      · exact absurd h (by simp)
      next rest hr =>
        injection h with h2
        subst h2
        intro ev hev
        simp only [List.mem_append, List.mem_cons, List.not_mem_nil, or_false] at hev
        rcases hev with (h1 | h1) | h1
        · exact Or.inl h1
        · exact Or.inr (Or.inr h1)
        · exact ih (k + 1) rest hr ev h1
    · unfold poll_loop at h
      rw [if_neg hk] at h
      injection h with h2
      subst h2
      intro ev hev
      simp only [List.mem_cons, List.not_mem_nil, or_false] at hev
      exact Or.inr (Or.inl hev)

/-- C8: restart first performs stop; it then checks the existence of
twistd.pid, sleeping 100 milliseconds after every positive check, and
performs start only right after the first negative check, so the marker
is never observed present at the moment start begins; the loop has no
timeout bound: with a marker that never disappears, no amount of fuel
makes the run reach start. -/
theorem restart_poll_spec (e : Nat → Bool) (n fuel : Nat)
    (hfalse : e n = false) (htrue : ∀ k, k < n → e k = true)
    (hfuel : n < fuel) :
    handle_restart e fuel
      = some (RestartEv.stopCmd ::
          (poll_head_trace n ++
            [RestartEv.checkMarker false, RestartEv.startCmd restart_start_options]))
    ∧ (∀ e2 : Nat → Bool, (∀ k, e2 k = true) →
        ∀ f, handle_restart e2 f = none) := by
  constructor
  · have hp := poll_loop_eq e n 0 fuel
      (by intro j hj; simpa using htrue j hj) (by simpa using hfalse) hfuel
    simp [handle_restart, hp]
  · intro e2 h2 f
    simp [handle_restart, poll_loop_none e2 h2 f 0]

/-- C8 witness: a marker that disappears at the third check, evaluated
through the theorem: the run is stop, two positive checks each followed
by a 100 millisecond sleep, one negative check, then start. -/
theorem restart_poll_spec_witness :
    handle_restart (fun k => decide (k < 2)) 4
      = some (RestartEv.stopCmd ::
          (poll_head_trace 2 ++
            [RestartEv.checkMarker false, RestartEv.startCmd restart_start_options]))
    ∧ (∀ e2 : Nat → Bool, (∀ k, e2 k = true) →
        ∀ f, handle_restart e2 f = none) :=
  restart_poll_spec (fun k => decide (k < 2)) 2 4 (by decide) (by decide)
    (by decide)

/-- C10: the start performed as the second step of restart is invoked
with no options (handle_start_command() on line 262 uses the default
options None), and with no options the built argument vector contains no
--port override element, whichever the configuration, platform, heroku
flag and application name (the application name itself not being a
--port= string). -/
theorem restart_start_no_port_override (e : Nat → Bool) (fuel : Nat)
    (tr : List RestartEv) (cfg : AppConfig) (p : HostPlatform) (hk : Bool)
    (a : String) (htr : handle_restart e fuel = some tr)
    (ha : strHasPrefix "--port=" a = false) :
    (∀ o : Option String, RestartEv.startCmd o ∈ tr → o = restart_start_options)
    ∧ (∀ x ∈ build_args cfg p hk a restart_start_options,
        strHasPrefix "--port=" x = false) := by
  constructor
  · unfold handle_restart at htr
    split at htr
    · exact absurd htr (by simp)
    next pl hpl =>
      injection htr with h2
      subst h2
      intro o ho
      rcases List.mem_cons.mp ho with h1 | h1
      · exact absurd h1 (by simp)
      rcases List.mem_append.mp h1 with h2 | h2
      · rcases poll_loop_events e fuel 0 pl hpl (RestartEv.startCmd o) h2 with
          h3 | h3 | h3 <;> exact absurd h3 (by simp)
      · have h3 : RestartEv.startCmd o = RestartEv.startCmd restart_start_options := by
          simpa using h2
        injection h3
  · rcases cfg with ⟨po, d, au, re⟩
    have hreac : strHasPrefix "--port="
        (determine_platform_reactor ⟨po, d, au, re⟩ p) = false := by
      rcases re with _ | r
      · rcases p <;> rfl
      · rfl
    intro x hx
    rcases hk with _ | _
    · rcases au with _ | _
      · rcases d with _ | _
        · rw [show build_args ⟨po, false, false, re⟩ p false a restart_start_options
              = ["twistd", determine_platform_reactor ⟨po, false, false, re⟩ p,
                 "--syslog", a] from rfl] at hx
          simp only [List.mem_cons, List.not_mem_nil, or_false] at hx
          rcases hx with rfl | rfl | rfl | rfl
          · rfl
          · exact hreac
          · rfl
          · exact ha
        · rw [show build_args ⟨po, true, false, re⟩ p false a restart_start_options
              = ["twistd", "--nodaemon",
                 determine_platform_reactor ⟨po, true, false, re⟩ p, a] from rfl] at hx
          simp only [List.mem_cons, List.not_mem_nil, or_false] at hx
          rcases hx with rfl | rfl | rfl | rfl
          · rfl
          · rfl
          · exact hreac
          · exact ha
      · rcases d with _ | _
        · rw [show build_args ⟨po, false, true, re⟩ p false a restart_start_options
              = ["twistd", "--syslog", a] from rfl] at hx
          simp only [List.mem_cons, List.not_mem_nil, or_false] at hx
          rcases hx with rfl | rfl | rfl
          · rfl
          · rfl
          · exact ha
        · rw [show build_args ⟨po, true, true, re⟩ p false a restart_start_options
              = ["twistd", "--nodaemon", a] from rfl] at hx
          simp only [List.mem_cons, List.not_mem_nil, or_false] at hx
          rcases hx with rfl | rfl | rfl
          · rfl
          · rfl
          · exact ha
    · rw [show build_args ⟨po, d, au, re⟩ p true a restart_start_options
          = ["twistd", "--nodaemon", a] from rfl] at hx
      simp only [List.mem_cons, List.not_mem_nil, or_false] at hx
      rcases hx with rfl | rfl | rfl
      · rfl
      · rfl
      · exact ha

/-- C10 witness: a concrete restart trace and a concrete production
configuration evaluated through the theorem. -/
theorem restart_start_no_port_override_witness :
    (∀ o : Option String,
      RestartEv.startCmd o ∈ [RestartEv.stopCmd, RestartEv.checkMarker false,
        RestartEv.startCmd restart_start_options] → o = restart_start_options)
    ∧ (∀ x ∈ build_args ⟨some 8080, false, false, none⟩ .gnu_linux false "dummy"
        restart_start_options, strHasPrefix "--port=" x = false) :=
  restart_start_no_port_override (fun _ => false) 1
    [RestartEv.stopCmd, RestartEv.checkMarker false,
     RestartEv.startCmd restart_start_options]
    ⟨some 8080, false, false, none⟩ .gnu_linux false "dummy"
    (by decide) (by decide)

/-- C9 witness: the heroku environment replaced the process image with
the child; the plain production environment performed a supervised
spawn, both evaluated through the theorem. -/
theorem start_exec_iff_heroku_or_dev_witness :
    run_start demo_env_heroku none [] =
      (.execReplaced (build_args demo_env_heroku.cfg demo_env_heroku.platform
        (in_heroku demo_env_heroku) "dummy" none), 0, 1)
    ∧ 1 ≤ (run_start demo_env none [("fine", "")]).2.1 :=
  ⟨(start_exec_iff_heroku_or_dev demo_env_heroku none [] "dummy" "fine" "" []
      rfl (by decide) rfl rfl).1 (by decide),
   (start_exec_iff_heroku_or_dev demo_env none [("fine", "")] "dummy" "fine" "" []
      rfl (by decide) rfl rfl).2.2 (by decide)⟩
